import Mathlib

/-!
Shallow embedding of the BAVI audio-guidance core (`src/AudioGenerator.py`).

The Python floats are modelled as real numbers; `math.pow(x, 1/2)` on a
non-negative argument is `Real.sqrt`, and `math.pow(x, 0.8)` is the real
power `x ^ (0.8 : ℝ)`.  Pixel coordinates delivered by the vision pipeline
are integers (`VideoProcessor` passes `int(round(...))` values), so target
positions are pairs of integers, cast to ℝ inside the arithmetic.  The
CPython identity test `circle[0] is 0` on such small interned integers
behaves as equality and is modelled as integer equality.
-/

namespace AudioGenerator

/-- `AudioGenerator.Classification` enum from the source. -/
inductive Classification where
  | WIDE_LEFT
  | WIDE_RIGHT
  | TRACK
  | BULLS
  | NONE
  deriving DecidableEq, Repr

/-- Class attribute `ONLY_VERT_PACING = True` (default pacing mode). -/
def ONLY_VERT_PACING : Bool := true

/-- Class attribute `center_freq = 440`. -/
def center_freq : ℕ := 440

/-- Class attribute `bulls_freq = 880`. -/
def bulls_freq : ℕ := 880

/-- Class attribute `cycle_time_max = 1000`. -/
def cycle_time_max : ℝ := 1000

/-- Class attribute `cycle_time_min = 200`. -/
def cycle_time_min : ℝ := 200

/-- Class attribute `cycle_time_blip = 40`. -/
def cycle_time_blip : ℝ := 40

/-- Class attribute `thresh_balance = 0.5`. -/
def thresh_balance : ℝ := 0.5

/-- Class attribute `thresh_center = 0.06`. -/
def thresh_center : ℝ := 0.06

/-- Class attribute `thresh_min_volume = -16.0`. -/
def thresh_min_volume : ℝ := -16.0

/-- Class attribute `error_limit = 10` (the detection-loss debounce limit). -/
def error_limit : ℕ := 10

/-- `AudioGenerator.get_balance`: the balance-shaping function.  The Python
body initialises `balance_ = 0` and overwrites it in each branch; the final
`else 0` below is that initial value (the three inner branches are in fact
exhaustive over the middle interval). -/
noncomputable def get_balance (balance : ℝ) : ℝ :=
  if balance > thresh_balance then 1.0
  else if balance < - thresh_balance then -1.0
  else if balance ≥ - thresh_center ∧ balance ≤ thresh_center then 0
  else if balance < - thresh_center then
    - Real.sqrt (- ((balance + thresh_center) *
        (thresh_balance / (thresh_balance - thresh_center)) * (1 / thresh_balance)))
  else if balance > thresh_center then
    Real.sqrt ((balance - thresh_center) *
        (thresh_balance / (thresh_balance - thresh_center)) * (1 / thresh_balance))
  else 0

/-- `AudioGenerator.classify`.  The `volume` argument is accepted and (as in
the source) never used.  `only_vert` is the `ONLY_VERT_PACING` class flag. -/
noncomputable def classify (only_vert : Bool) (balance volume dist_from_center : ℝ) :
    Classification :=
  if balance ≤ -1.0 then .WIDE_LEFT
  else if balance ≥ 1.0 then .WIDE_RIGHT
  else if ¬ only_vert then
    if dist_from_center ≤ 10 then .BULLS else .TRACK
  else
    if |balance| < thresh_center ∧ dist_from_center < 10 then .BULLS else .TRACK

/-- `AudioGenerator.get_distance`.  `bounds` is `(width, height)`; the
`balance` argument is accepted and (as in the source) never used.  The
`max_displacement` of the non-vertical branch is
`sqrt ((w/2)^2 + (h/2)^2)` computed in `__init__`. -/
noncomputable def get_distance (w h : ℤ) (only_vert : Bool)
    (distance balance : ℝ) : ℝ :=
  if only_vert then
    (distance / (h : ℝ) / 0.4) ^ (0.8 : ℝ)
  else
    (distance / Real.sqrt (((w : ℝ) / 2) ^ 2 + ((h : ℝ) / 2) ^ 2)
      / 0.375) ^ (0.8 : ℝ)

/-- The raw `_dist_from_center` computed inside `process_circle`:
vertical offset from the frame's horizontal midline in vertical-only pacing,
Euclidean distance from the frame centre otherwise. -/
noncomputable def dist_from_center (w h : ℤ) (only_vert : Bool)
    (x y : ℤ) : ℝ :=
  if only_vert then
    |(y : ℝ) - (h : ℝ) / 2|
  else
    Real.sqrt (((x : ℝ) - (w : ℝ) / 2) ^ 2 + ((y : ℝ) - (h : ℝ) / 2) ^ 2)

/-- The 4-tuple returned by `AudioGenerator.process_circle`. -/
structure ShapingResult where
  balance : ℝ
  volume : ℝ
  distance : ℝ
  classification : Classification

/-- `AudioGenerator.process_circle`. -/
noncomputable def process_circle (w h : ℤ) (only_vert : Bool)
    (x y : ℤ) : ShapingResult :=
  { balance := get_balance (((x : ℝ) - (w : ℝ) / 2) / ((w : ℝ) / 2))
    volume := thresh_min_volume -
      ((1 - Real.sqrt (get_balance |((x : ℝ) - (w : ℝ) / 2) / ((w : ℝ) / 2)|)) *
        thresh_min_volume)
    distance := get_distance w h only_vert (dist_from_center w h only_vert x y)
      (get_balance (((x : ℝ) - (w : ℝ) / 2) / ((w : ℝ) / 2)))
    classification := classify only_vert
      (get_balance (((x : ℝ) - (w : ℝ) / 2) / ((w : ℝ) / 2)))
      (thresh_min_volume -
        ((1 - Real.sqrt (get_balance |((x : ℝ) - (w : ℝ) / 2) / ((w : ℝ) / 2)|)) *
          thresh_min_volume))
      (dist_from_center w h only_vert x y) }

/-- One tone segment: `Sine(freq).to_audio_segment(duration, volume)`. -/
structure ToneSeg where
  freq : ℕ
  duration : ℝ
  volume : ℝ

/-- `pydub` `Sine(freq).to_audio_segment(duration, volume)`, modelled as the
one-segment descriptor; pydub `+` on segments is list concatenation. -/
def to_audio_segment (freq : ℕ) (duration volume : ℝ) : List ToneSeg :=
  [⟨freq, duration, volume⟩]

/-- `AudioGenerator.generate_beeps`.  The Python function falls off the end
(returns `None`) for `BULLS` and `NONE`, hence the `Option`. -/
noncomputable def generate_beeps (freq : ℕ) (balance volume dist_from_center : ℝ)
    (classification : Classification) : Option (List ToneSeg) :=
  match classification with
  | .WIDE_LEFT => some (to_audio_segment freq cycle_time_min volume)
  | .WIDE_RIGHT => some (to_audio_segment freq cycle_time_min volume)
  | .TRACK =>
      some (to_audio_segment freq cycle_time_blip volume ++
        to_audio_segment freq ((cycle_time_max - cycle_time_blip) * dist_from_center ^ 2)
          (-9999))
  | _ => none

/-- A playback buffer before loop expansion: segments plus the pan applied to
the whole buffer (`AudioSegment.pan`; a segment never panned sits at centre 0,
pydub's default). -/
structure PannedSound where
  segments : List ToneSeg
  pan : ℝ

/-- `AudioGenerator.generate_sound`.  Falls off the end (returns `None`) for
`NONE`. -/
noncomputable def generate_sound (balance volume dist_from_center : ℝ)
    (classification : Classification) : Option PannedSound :=
  match classification with
  | .WIDE_LEFT =>
      (generate_beeps center_freq balance volume dist_from_center .WIDE_LEFT).map
        (fun s => ⟨s, -1⟩)
  | .WIDE_RIGHT =>
      (generate_beeps center_freq balance volume dist_from_center .WIDE_RIGHT).map
        (fun s => ⟨s, 1⟩)
  | .TRACK =>
      (generate_beeps center_freq balance volume dist_from_center .TRACK).map
        (fun s => ⟨s, balance⟩)
  | .BULLS => some ⟨to_audio_segment bulls_freq cycle_time_min (volume / 2), 0⟩
  | .NONE => none

/-- Outcome of one lidar read attempt, before the `try/except` in
`AudioGenerator.get_range` flattens it: either a successfully parsed integer,
or one of the failure causes the source can hit (sensor absent because
`__init__`'s `serial.Serial` failed, `read` raising, or the split/`int` parse
raising). -/
inductive RangeRead where
  | ok (n : ℤ)
  | sensorAbsent
  | readError
  | unparsable
  deriving DecidableEq, Repr

/-- `AudioGenerator.get_range`: return the parsed reading, and on any
exception whatsoever return the sentinel `-1`. -/
def get_range : RangeRead → ℤ
  | .ok n => n
  | _ => -1

/-- The supervisor's mutable fields: `prev_pid`, `prev_type`,
`error_cycles`. -/
structure State where
  prev_pid : Option ℕ
  prev_type : Classification
  error_cycles : ℕ
  deriving DecidableEq, Repr

/-- Initial supervisor state as set by the class attributes:
`prev_pid = None`, `prev_type = Classification.NONE`, `error_cycles = 0`. -/
def init : State := ⟨none, .NONE, 0⟩

/-- Observable outcome of one `run` cycle: the updated state, the pid of the
playback process spawned this cycle (if any; `spawn_play` spawns exactly one
process per call), and the arguments of the `kill_process` calls made this
cycle (`kill_process None` is a no-op). -/
structure StepResult where
  state : State
  spawned : Option ℕ
  killed : List (Option ℕ)
  deriving DecidableEq, Repr

/-- The decision core of `AudioGenerator.run`, in state-passing form.
`newPid` is the pid the OS would assign to a process spawned this cycle.
Mirrors the source: on the sentinel `(0,0)`, either the debounced kill branch
(when `error_cycles >= error_limit`) or a bare increment; on a valid circle,
either replay suppression (same non-`TRACK` classification: nothing changes)
or `spawn_play` + bookkeeping update. -/
noncomputable def step (w h : ℤ) (only_vert : Bool) (s : State)
    (x y : ℤ) (newPid : ℕ) : StepResult :=
  if x = 0 ∧ y = 0 then
    if s.error_cycles ≥ error_limit then
      { state := { prev_pid := none, prev_type := .NONE,
                   error_cycles := s.error_cycles + 1 }
        spawned := none
        killed := [s.prev_pid] }
    else
      { state := { s with error_cycles := s.error_cycles + 1 }
        spawned := none
        killed := [] }
  else
    let r := process_circle w h only_vert x y
    if r.classification ≠ .TRACK ∧ r.classification = s.prev_type then
      { state := s, spawned := none, killed := [] }
    else
      { state := { prev_pid := some newPid, prev_type := r.classification,
                   error_cycles := 0 }
        spawned := some newPid
        killed := [s.prev_pid] }

/-- `AudioGenerator.run`: reads the range sensor (the reading is only
printed) and then runs the decision core. -/
noncomputable def run (w h : ℤ) (only_vert : Bool) (s : State)
    (reading : RangeRead) (x y : ℤ) (newPid : ℕ) : StepResult :=
  let target_range := get_range reading
  step w h only_vert s x y newPid

/-- `n` consecutive `run` cycles fed the sentinel position `(0,0)` (the pid
argument is irrelevant on the sentinel path). -/
noncomputable def runSentinel (w h : ℤ) (only_vert : Bool) (s : State) :
    ℕ → State
  | 0 => s
  | n + 1 => (step w h only_vert (runSentinel w h only_vert s n) 0 0 0).state

/-- Supervisor states reachable from construction by any sequence of `run`
cycles (any circles, any pids the OS hands out). -/
inductive Reachable (w h : ℤ) (only_vert : Bool) : State → Prop where
  | start : Reachable w h only_vert init
  | next (s : State) (x y : ℤ) (newPid : ℕ) :
      Reachable w h only_vert s →
      Reachable w h only_vert (step w h only_vert s x y newPid).state

/-- `√y ≤ 1` whenever `y ≤ 1`. -/
theorem sqrt_le_one_of_le_one {y : ℝ} (h : y ≤ 1) : Real.sqrt y ≤ 1 :=
  Real.sqrt_le_iff.mpr ⟨zero_le_one, by rw [one_pow]; exact h⟩

/-- Saturation branch: raw balance above `thresh_balance` maps to `1`. -/
theorem get_balance_sat_pos {v : ℝ} (h : thresh_balance < v) : get_balance v = 1 := by
  unfold get_balance
  rw [if_pos h]
  norm_num

/-- Saturation branch: raw balance below `-thresh_balance` maps to `-1`. -/
theorem get_balance_sat_neg {v : ℝ} (h : v < -thresh_balance) : get_balance v = -1 := by
  have h' : ¬ v > thresh_balance := by unfold thresh_balance at *; linarith
  unfold get_balance
  rw [if_neg h', if_pos h]
  norm_num

/-- Deadzone branch: `|v| ≤ thresh_center` maps to `0`. -/
theorem get_balance_deadzone {v : ℝ} (h1 : -thresh_center ≤ v) (h2 : v ≤ thresh_center) :
    get_balance v = 0 := by
  have ha : ¬ v > thresh_balance := by unfold thresh_balance thresh_center at *; linarith
  have hb : ¬ v < -thresh_balance := by unfold thresh_balance thresh_center at *; linarith
  unfold get_balance
  rw [if_neg ha, if_neg hb, if_pos ⟨h1, h2⟩]

/-- Shaping branch, positive side. -/
theorem get_balance_mid_pos {v : ℝ} (h1 : thresh_center < v) (h2 : v ≤ thresh_balance) :
    get_balance v = Real.sqrt ((v - thresh_center) *
      (thresh_balance / (thresh_balance - thresh_center)) * (1 / thresh_balance)) := by
  have ha : ¬ v > thresh_balance := not_lt.mpr h2
  have hb : ¬ v < -thresh_balance := by unfold thresh_balance thresh_center at *; linarith
  have hc : ¬ (v ≥ -thresh_center ∧ v ≤ thresh_center) := fun h => absurd h.2 (not_le.mpr h1)
  have hd : ¬ v < -thresh_center := by unfold thresh_center at *; linarith
  unfold get_balance
  rw [if_neg ha, if_neg hb, if_neg hc, if_neg hd, if_pos h1]

/-- Shaping branch, negative side. -/
theorem get_balance_mid_neg {v : ℝ} (h1 : -thresh_balance ≤ v) (h2 : v < -thresh_center) :
    get_balance v = - Real.sqrt (- ((v + thresh_center) *
      (thresh_balance / (thresh_balance - thresh_center)) * (1 / thresh_balance))) := by
  have ha : ¬ v > thresh_balance := by unfold thresh_balance thresh_center at *; linarith
  have hb : ¬ v < -thresh_balance := not_lt.mpr h1
  have hc : ¬ (v ≥ -thresh_center ∧ v ≤ thresh_center) := by
    rintro ⟨hge, _⟩
    exact absurd h2 (not_lt.mpr hge)
  unfold get_balance
  rw [if_neg ha, if_neg hb, if_neg hc, if_pos h2]

/-- The shaped balance always lies in `[-1, 1]`. -/
theorem get_balance_range (v : ℝ) : -1 ≤ get_balance v ∧ get_balance v ≤ 1 := by
  rcases lt_or_le thresh_balance v with h1 | h1
  · rw [get_balance_sat_pos h1]; norm_num
  rcases lt_or_le v (-thresh_balance) with h2 | h2
  · rw [get_balance_sat_neg h2]; norm_num
  rcases le_or_lt v (-thresh_center) with h3 | h3
  · rcases eq_or_lt_of_le h3 with h3 | h3
    · rw [get_balance_deadzone (le_of_eq h3.symm) (by rw [h3]; unfold thresh_center; norm_num)]
      norm_num
    · rw [get_balance_mid_neg h2 h3]
      have hle : Real.sqrt (- ((v + thresh_center) *
          (thresh_balance / (thresh_balance - thresh_center)) * (1 / thresh_balance))) ≤ 1 := by
        apply sqrt_le_one_of_le_one
        unfold thresh_balance thresh_center at *
        nlinarith
      have hnn := Real.sqrt_nonneg (- ((v + thresh_center) *
          (thresh_balance / (thresh_balance - thresh_center)) * (1 / thresh_balance)))
      constructor <;> linarith
  rcases le_or_lt v thresh_center with h4 | h4
  · rw [get_balance_deadzone (le_of_lt h3) h4]; norm_num
  · rw [get_balance_mid_pos h4 h1]
    have hle : Real.sqrt ((v - thresh_center) *
        (thresh_balance / (thresh_balance - thresh_center)) * (1 / thresh_balance)) ≤ 1 := by
      apply sqrt_le_one_of_le_one
      unfold thresh_balance thresh_center at *
      nlinarith
    have hnn := Real.sqrt_nonneg ((v - thresh_center) *
        (thresh_balance / (thresh_balance - thresh_center)) * (1 / thresh_balance))
    constructor <;> linarith

/-- On non-negative inputs the shaped balance is non-negative. -/
theorem get_balance_nonneg {v : ℝ} (hv : 0 ≤ v) : 0 ≤ get_balance v := by
  rcases lt_or_le thresh_balance v with h1 | h1
  · rw [get_balance_sat_pos h1]; norm_num
  rcases le_or_lt v thresh_center with h4 | h4
  · rw [get_balance_deadzone (by unfold thresh_center at *; linarith) h4]
  · rw [get_balance_mid_pos h4 h1]
    exact Real.sqrt_nonneg _

/-- The spec's own piecewise `shapeBalance` (§4.1), written from the spec's
words for comparison against the source's `get_balance`: saturate sign-matched
to `±1` when `|v| > balanceThreshold`; snap to `0` when `|v| ≤ centerDeadzone`;
for `v > centerDeadzone` return `√t` with
`t = (v - centerDeadzone) * (balanceThreshold/(balanceThreshold - centerDeadzone)) * (1/balanceThreshold)`;
mirror with negation (`-√(t(-v))`) for `v < -centerDeadzone`. -/
noncomputable def shapeBalance_spec (v : ℝ) : ℝ :=
  if |v| > thresh_balance then (if 0 < v then 1 else -1)
  else if |v| ≤ thresh_center then 0
  else if thresh_center < v then
    Real.sqrt ((v - thresh_center) *
      (thresh_balance / (thresh_balance - thresh_center)) * (1 / thresh_balance))
  else
    - Real.sqrt ((-v - thresh_center) *
      (thresh_balance / (thresh_balance - thresh_center)) * (1 / thresh_balance))

/-- C4: the source's `get_balance` agrees with the spec's piecewise
`shapeBalance` at every real input. -/
theorem C4_get_balance_matches_shapeBalance (v : ℝ) :
    get_balance v = shapeBalance_spec v := by
  unfold shapeBalance_spec
  rcases lt_or_le thresh_balance v with h1 | h1
  · have h0 : 0 < v := by unfold thresh_balance at h1; linarith
    rw [get_balance_sat_pos h1, if_pos (by rwa [abs_of_pos h0]), if_pos h0]
  rcases lt_or_le v (-thresh_balance) with h2 | h2
  · have hneg : v < 0 := by unfold thresh_balance at h2; linarith
    have habs : |v| > thresh_balance := by
      rw [abs_of_neg hneg]; unfold thresh_balance at *; linarith
    rw [get_balance_sat_neg h2, if_pos habs, if_neg (not_lt.mpr hneg.le)]
  have habs_le : ¬ |v| > thresh_balance := not_lt.mpr (abs_le.mpr ⟨by linarith, h1⟩)
  rcases le_or_lt v (-thresh_center) with h3 | h3
  · rcases eq_or_lt_of_le h3 with heq | hlt
    · rw [get_balance_deadzone (le_of_eq heq.symm) (by rw [heq]; unfold thresh_center; norm_num),
        if_neg habs_le,
        if_pos (by rw [heq, abs_neg, abs_of_pos (by unfold thresh_center; norm_num)])]
    · have habs_gt : ¬ |v| ≤ thresh_center := by
        rw [not_le, abs_of_neg (by unfold thresh_center at *; linarith)]
        unfold thresh_center at *; linarith
      have hnotpos : ¬ thresh_center < v := by unfold thresh_center at *; linarith
      rw [get_balance_mid_neg h2 hlt, if_neg habs_le, if_neg habs_gt, if_neg hnotpos]
      have harg : - ((v + thresh_center) *
          (thresh_balance / (thresh_balance - thresh_center)) * (1 / thresh_balance)) =
          (-v - thresh_center) *
          (thresh_balance / (thresh_balance - thresh_center)) * (1 / thresh_balance) := by
        ring
      rw [harg]
  rcases le_or_lt v thresh_center with h4 | h4
  · rw [get_balance_deadzone (le_of_lt h3) h4, if_neg habs_le,
      if_pos (abs_le.mpr ⟨le_of_lt h3, h4⟩)]
  · have habs_gt : ¬ |v| ≤ thresh_center := by
      rw [not_le, abs_of_pos (by unfold thresh_center at *; linarith)]; exact h4
    rw [get_balance_mid_pos h4 h1, if_neg habs_le, if_neg habs_gt, if_pos h4]

/-- The claim's classification rule, written from the spec's words (§4.1
`classify`): `WideLeft` iff `balance ≤ -1`; else `WideRight` iff
`balance ≥ 1`; else `Bulls` iff `|balance| < centerDeadzone` and
`distanceFromCenter < 10`; else `Track`. -/
noncomputable def classify_spec (balance dist_from_center : ℝ) : Classification :=
  if balance ≤ -1.0 then .WIDE_LEFT
  else if balance ≥ 1.0 then .WIDE_RIGHT
  else if |balance| < thresh_center ∧ dist_from_center < 10 then .BULLS
  else .TRACK

/-- Every branch of `classify` is a non-`NONE` constructor. -/
theorem classify_ne_none (only_vert : Bool) (balance volume d : ℝ) :
    classify only_vert balance volume d ≠ .NONE := by
  unfold classify
  split_ifs <;> simp

/-- C3 counterexample: in radial (non-vertical-only) pacing mode the source
classifies on `dist_from_center ≤ 10` alone, ignoring the deadzone test — at
balance `0.5`, distance `5` it returns `BULLS`, while the claimed rule
(`|balance| < 0.06` required) returns `TRACK`. -/
theorem C3_radial_counterexample :
    classify false 0.5 0 5 = .BULLS ∧ classify_spec 0.5 5 = .TRACK ∧
      classify false 0.5 0 5 ≠ classify_spec 0.5 5 := by
  have h1 : ¬ (0.5 : ℝ) ≤ -1.0 := by norm_num
  have h2 : ¬ (0.5 : ℝ) ≥ 1.0 := by norm_num
  have hc : classify false 0.5 0 5 = .BULLS := by
    unfold classify
    rw [if_neg h1, if_neg h2, if_pos (by simp), if_pos (by norm_num : (5:ℝ) ≤ 10)]
  have hs : classify_spec 0.5 5 = .TRACK := by
    unfold classify_spec
    rw [if_neg h1, if_neg h2, if_neg]
    rintro ⟨habs, -⟩
    rw [abs_of_pos (by norm_num)] at habs
    unfold thresh_center at habs
    norm_num at habs
  refine ⟨hc, hs, ?_⟩
  rw [hc, hs]
  simp

/-- C3 amended: in vertical-only pacing (the shipped configuration) the
source classification agrees with the claimed rule at every input; in radial
pacing, once the Wide saturations are excluded, `BULLS` is returned iff
`dist_from_center ≤ 10` regardless of balance; and no mode ever returns
`NONE`. -/
theorem C3_classify_amended :
    (∀ b vol d : ℝ, classify true b vol d = classify_spec b d) ∧
    (∀ b vol d : ℝ, -1.0 < b → b < 1.0 →
      (classify false b vol d = .BULLS ↔ d ≤ 10)) ∧
    (∀ (m : Bool) (b vol d : ℝ), classify m b vol d ≠ .NONE) := by
  refine ⟨?_, ?_, ?_⟩
  · intro b vol d
    unfold classify classify_spec
    rcases le_or_lt b (-1.0) with h | h
    · rw [if_pos h, if_pos h]
    rw [if_neg (not_le.mpr h), if_neg (not_le.mpr h)]
    rcases le_or_lt (1.0 : ℝ) b with h2 | h2
    · rw [if_pos h2, if_pos h2]
    rw [if_neg (not_le.mpr h2), if_neg (not_le.mpr h2), if_neg (by simp)]
  · intro b vol d hb1 hb2
    unfold classify
    rw [if_neg (not_le.mpr hb1), if_neg (not_le.mpr hb2), if_pos (by simp)]
    rcases le_or_lt d 10 with hd | hd
    · rw [if_pos hd]
      simp [hd]
    · rw [if_neg (not_le.mpr hd)]
      simp [not_le.mpr hd]
  · exact classify_ne_none

/-- Witness for the amended C3, at the radial-mode input that separates the
source rule from the claimed one. -/
theorem C3_classify_amended_witness :
    (-1.0 : ℝ) < 0.5 ∧ (0.5 : ℝ) < 1.0 ∧ classify false 0.5 0 5 = .BULLS :=
  ⟨by norm_num, by norm_num,
    (C3_classify_amended.2.1 0.5 0 5 (by norm_num) (by norm_num)).mpr (by norm_num)⟩

/-- C5: for every target position processed by `process_circle` with positive
frame boundaries, the returned balance lies in `[-1, 1]` and the returned
volume lies in `[thresh_min_volume, 0]`, with `thresh_min_volume = -16`. -/
theorem C5_shaping_bounds (w h : ℤ) (only_vert : Bool) (x y : ℤ)
    (hw : 0 < w) (hh : 0 < h) :
    -1 ≤ (process_circle w h only_vert x y).balance ∧
      (process_circle w h only_vert x y).balance ≤ 1 ∧
      thresh_min_volume ≤ (process_circle w h only_vert x y).volume ∧
      (process_circle w h only_vert x y).volume ≤ 0 ∧
      thresh_min_volume = -16 := by
  have hb := get_balance_range (((x : ℝ) - (w : ℝ) / 2) / ((w : ℝ) / 2))
  have h1 := (get_balance_range |((x : ℝ) - (w : ℝ) / 2) / ((w : ℝ) / 2)|).2
  have hs0 := Real.sqrt_nonneg (get_balance |((x : ℝ) - (w : ℝ) / 2) / ((w : ℝ) / 2)|)
  have hs1 := sqrt_le_one_of_le_one h1
  refine ⟨hb.1, hb.2, ?_, ?_, by unfold thresh_min_volume; norm_num⟩
  · show thresh_min_volume ≤ thresh_min_volume -
      ((1 - Real.sqrt (get_balance |((x : ℝ) - (w : ℝ) / 2) / ((w : ℝ) / 2)|)) *
        thresh_min_volume)
    unfold thresh_min_volume
    nlinarith
  · show thresh_min_volume -
      ((1 - Real.sqrt (get_balance |((x : ℝ) - (w : ℝ) / 2) / ((w : ℝ) / 2)|)) *
        thresh_min_volume) ≤ 0
    unfold thresh_min_volume
    nlinarith

/-- Witness for C5 at the default 640×480 boundaries and the frame centre. -/
theorem C5_shaping_bounds_witness :
    (0 : ℤ) < 640 ∧ (0 : ℤ) < 480 ∧
      (-1 ≤ (process_circle 640 480 true 320 240).balance ∧
        (process_circle 640 480 true 320 240).balance ≤ 1 ∧
        thresh_min_volume ≤ (process_circle 640 480 true 320 240).volume ∧
        (process_circle 640 480 true 320 240).volume ≤ 0 ∧
        thresh_min_volume = -16) :=
  ⟨by norm_num, by norm_num,
    C5_shaping_bounds 640 480 true 320 240 (by norm_num) (by norm_num)⟩

/-- The raw balance of `x = 150` in a 640-wide frame saturates to `-1`. -/
theorem balance_150_saturates :
    get_balance ((((150 : ℤ) : ℝ) - ((640 : ℤ) : ℝ) / 2) / (((640 : ℤ) : ℝ) / 2)) = -1 := by
  have hraw : (((150 : ℤ) : ℝ) - ((640 : ℤ) : ℝ) / 2) / (((640 : ℤ) : ℝ) / 2) =
      -0.53125 := by norm_num
  rw [hraw]
  exact get_balance_sat_neg (by unfold thresh_balance; norm_num)

/-- `(150, 70)` in a 640×480 frame classifies as `WIDE_LEFT`. -/
theorem classification_150_70 :
    (process_circle 640 480 true 150 70).classification = .WIDE_LEFT := by
  show classify true
      (get_balance ((((150 : ℤ) : ℝ) - ((640 : ℤ) : ℝ) / 2) / (((640 : ℤ) : ℝ) / 2)))
      (thresh_min_volume -
        ((1 - Real.sqrt (get_balance
          |(((150 : ℤ) : ℝ) - ((640 : ℤ) : ℝ) / 2) / (((640 : ℤ) : ℝ) / 2)|)) *
          thresh_min_volume))
      (dist_from_center 640 480 true 150 70) = .WIDE_LEFT
  rw [balance_150_saturates]
  unfold classify
  rw [if_pos (by norm_num : (-1 : ℝ) ≤ -1.0)]

/-- C6: the three spec scenarios at 640×480 boundaries in vertical-only
pacing: `(150,70)` is `WIDE_LEFT` with saturated balance `-1`; the exact
centre `(320,240)` is `BULLS` with balance `0` and zero distance from centre;
`(400,240)` is `TRACK` (not `BULLS`) with balance
`√((0.25-0.06)·(0.5/0.44)·(1/0.5))` despite its zero vertical offset. -/
theorem C6_concrete_scenarios :
    ((process_circle 640 480 true 150 70).classification = .WIDE_LEFT ∧
      (process_circle 640 480 true 150 70).balance = -1) ∧
    ((process_circle 640 480 true 320 240).classification = .BULLS ∧
      (process_circle 640 480 true 320 240).balance = 0 ∧
      dist_from_center 640 480 true 320 240 = 0) ∧
    ((process_circle 640 480 true 400 240).classification = .TRACK ∧
      (process_circle 640 480 true 400 240).balance =
        Real.sqrt ((0.25 - 0.06) * (0.5 / 0.44) * (1 / 0.5)) ∧
      dist_from_center 640 480 true 400 240 = 0) := by
  have hbal1 := balance_150_saturates
  have hcls1 := classification_150_70
  have hraw2 : (((320 : ℤ) : ℝ) - ((640 : ℤ) : ℝ) / 2) / (((640 : ℤ) : ℝ) / 2) = 0 := by
    norm_num
  have hbal2 : get_balance ((((320 : ℤ) : ℝ) - ((640 : ℤ) : ℝ) / 2) /
      (((640 : ℤ) : ℝ) / 2)) = 0 := by
    rw [hraw2]
    exact get_balance_deadzone (by unfold thresh_center; norm_num)
      (by unfold thresh_center; norm_num)
  have hdist2 : dist_from_center 640 480 true 320 240 = 0 := by
    unfold dist_from_center
    rw [if_pos rfl, abs_eq_zero]
    norm_num
  have hcls2 : (process_circle 640 480 true 320 240).classification = .BULLS := by
    show classify true
        (get_balance ((((320 : ℤ) : ℝ) - ((640 : ℤ) : ℝ) / 2) / (((640 : ℤ) : ℝ) / 2)))
        (thresh_min_volume -
          ((1 - Real.sqrt (get_balance
            |(((320 : ℤ) : ℝ) - ((640 : ℤ) : ℝ) / 2) / (((640 : ℤ) : ℝ) / 2)|)) *
            thresh_min_volume))
        (dist_from_center 640 480 true 320 240) = .BULLS
    rw [hbal2, hdist2]
    unfold classify
    rw [if_neg (by norm_num : ¬ (0 : ℝ) ≤ -1.0), if_neg (by norm_num : ¬ (0 : ℝ) ≥ 1.0),
      if_neg (by simp),
      if_pos ⟨by rw [abs_zero]; unfold thresh_center; norm_num, by norm_num⟩]
  have hraw3 : (((400 : ℤ) : ℝ) - ((640 : ℤ) : ℝ) / 2) / (((640 : ℤ) : ℝ) / 2) = 0.25 := by
    norm_num
  have hbal3 : get_balance ((((400 : ℤ) : ℝ) - ((640 : ℤ) : ℝ) / 2) /
      (((640 : ℤ) : ℝ) / 2)) = Real.sqrt ((0.25 - 0.06) * (0.5 / 0.44) * (1 / 0.5)) := by
    rw [hraw3, get_balance_mid_pos (by unfold thresh_center; norm_num)
      (by unfold thresh_balance; norm_num)]
    congr 1
    unfold thresh_balance thresh_center
    norm_num
  have hdist3 : dist_from_center 640 480 true 400 240 = 0 := by
    unfold dist_from_center
    rw [if_pos rfl, abs_eq_zero]
    norm_num
  have hsq0 : (0 : ℝ) ≤ Real.sqrt ((0.25 - 0.06) * (0.5 / 0.44) * (1 / 0.5)) :=
    Real.sqrt_nonneg _
  have hsqlt : Real.sqrt ((0.25 - 0.06) * (0.5 / 0.44) * (1 / 0.5)) < 1 :=
    (Real.sqrt_lt' one_pos).mpr (by norm_num)
  have hsqge : (0.06 : ℝ) ≤ Real.sqrt ((0.25 - 0.06) * (0.5 / 0.44) * (1 / 0.5)) :=
    (Real.le_sqrt' (by norm_num)).mpr (by norm_num)
  have hcls3 : (process_circle 640 480 true 400 240).classification = .TRACK := by
    show classify true
        (get_balance ((((400 : ℤ) : ℝ) - ((640 : ℤ) : ℝ) / 2) / (((640 : ℤ) : ℝ) / 2)))
        (thresh_min_volume -
          ((1 - Real.sqrt (get_balance
            |(((400 : ℤ) : ℝ) - ((640 : ℤ) : ℝ) / 2) / (((640 : ℤ) : ℝ) / 2)|)) *
            thresh_min_volume))
        (dist_from_center 640 480 true 400 240) = .TRACK
    rw [hbal3, hdist3]
    unfold classify
    rw [if_neg (not_le.mpr (by linarith)), if_neg (not_le.mpr (by linarith)),
      if_neg (by simp), if_neg (by
        rintro ⟨habs, -⟩
        rw [abs_of_nonneg hsq0] at habs
        unfold thresh_center at habs
        linarith)]
  exact ⟨⟨hcls1, hbal1⟩, ⟨hcls2, hbal2, hdist2⟩, ⟨hcls3, hbal3, hdist3⟩⟩

/-- C7: for a `TRACK` classification the synthesized buffer (before loop
expansion) is exactly two segments in order — an audible tone at
`center_freq` of duration `cycle_time_blip` at the computed volume, then a
segment of duration `(cycle_time_max - cycle_time_blip) * d²` at volume
`-9999` (silence) — and the whole buffer is panned at the continuous balance
value; the trailing conjuncts pin the constants (440 Hz, 40 ms blip,
960 ms remainder). -/
theorem C7_track_buffer (balance volume d : ℝ) :
    generate_sound balance volume d .TRACK =
      some ⟨[⟨center_freq, cycle_time_blip, volume⟩,
             ⟨center_freq, (cycle_time_max - cycle_time_blip) * d ^ 2, -9999⟩],
            balance⟩ ∧
    center_freq = 440 ∧ cycle_time_blip = 40 ∧
    cycle_time_max - cycle_time_blip = 960 := by
  refine ⟨rfl, rfl, rfl, ?_⟩
  unfold cycle_time_max cycle_time_blip
  norm_num

/-- C8: `get_range` never lets a failure escape the supervisor boundary — a
successful parse returns the reading, every failure cause returns the single
sentinel `-1` (causes are not distinguished), and the reading has no effect
on the cycle's playback decision. -/
theorem C8_range_read_sentinel :
    (∀ n : ℤ, get_range (.ok n) = n) ∧
    (∀ r : RangeRead, (∀ n : ℤ, r ≠ .ok n) → get_range r = -1) ∧
    (∀ (w h : ℤ) (m : Bool) (s : State) (r₁ r₂ : RangeRead) (x y : ℤ) (p : ℕ),
      run w h m s r₁ x y p = run w h m s r₂ x y p) := by
  refine ⟨fun n => rfl, ?_, fun w h m s r₁ r₂ x y p => rfl⟩
  intro r hr
  cases r with
  | ok n => exact absurd rfl (hr n)
  | sensorAbsent => rfl
  | readError => rfl
  | unparsable => rfl

/-- Witness for C8: a failed read yields the sentinel, a parsed read yields
its value. -/
theorem C8_range_read_sentinel_witness :
    get_range .sensorAbsent = -1 ∧ get_range (.ok 42) = 42 :=
  ⟨C8_range_read_sentinel.2.1 .sensorAbsent (fun n h => nomatch h),
    C8_range_read_sentinel.1 42⟩

/-- Case analysis of one `run` cycle, with the `let` of the source inlined:
on a valid position the cycle either replay-suppresses or spawns; on the
sentinel it either debounce-kills or increments the miss count. -/
theorem step_cases (w h : ℤ) (m : Bool) (s : State) (x y : ℤ) (p : ℕ) :
    (¬ (x = 0 ∧ y = 0) →
      step w h m s x y p =
        if (process_circle w h m x y).classification ≠ .TRACK ∧
            (process_circle w h m x y).classification = s.prev_type then
          { state := s, spawned := none, killed := [] }
        else
          { state := { prev_pid := some p,
                       prev_type := (process_circle w h m x y).classification,
                       error_cycles := 0 }
            spawned := some p
            killed := [s.prev_pid] }) ∧
    ((x = 0 ∧ y = 0) →
      step w h m s x y p =
        if s.error_cycles ≥ error_limit then
          { state := { prev_pid := none, prev_type := .NONE,
                       error_cycles := s.error_cycles + 1 }
            spawned := none
            killed := [s.prev_pid] }
        else
          { state := { s with error_cycles := s.error_cycles + 1 }
            spawned := none
            killed := [] }) := by
  constructor
  · intro hv
    unfold step
    rw [if_neg hv]
  · intro hv
    unfold step
    rw [if_pos hv]

/-- C1: on a valid (non-sentinel) position, if the computed classification
equals `prev_type` and is not `TRACK`, no playback task is spawned and
`prev_pid`, `prev_type` and `error_cycles` are unchanged; in every other case
exactly one new playback task is spawned and recorded, `prev_type` is set to
the new classification and `error_cycles` is reset to 0. -/
theorem C1_replay_suppression (w h : ℤ) (m : Bool) (s : State) (x y : ℤ) (p : ℕ)
    (hvalid : ¬ (x = 0 ∧ y = 0)) :
    ((process_circle w h m x y).classification = s.prev_type ∧
        (process_circle w h m x y).classification ≠ .TRACK →
      (step w h m s x y p).spawned = none ∧
      (step w h m s x y p).state.prev_pid = s.prev_pid ∧
      (step w h m s x y p).state.prev_type = s.prev_type ∧
      (step w h m s x y p).state.error_cycles = s.error_cycles) ∧
    ((process_circle w h m x y).classification ≠ s.prev_type ∨
        (process_circle w h m x y).classification = .TRACK →
      (step w h m s x y p).spawned = some p ∧
      (step w h m s x y p).state.prev_pid = some p ∧
      (step w h m s x y p).state.prev_type = (process_circle w h m x y).classification ∧
      (step w h m s x y p).state.error_cycles = 0) := by
  rw [(step_cases w h m s x y p).1 hvalid]
  by_cases hc : (process_circle w h m x y).classification ≠ .TRACK ∧
      (process_circle w h m x y).classification = s.prev_type
  · rw [if_pos hc]
    constructor
    · intro _
      exact ⟨rfl, rfl, rfl, rfl⟩
    · rintro (hne | htrack)
      · exact absurd hc.2 hne
      · exact absurd htrack hc.1
  · rw [if_neg hc]
    constructor
    · intro hsup
      exact absurd ⟨hsup.2, hsup.1⟩ hc
    · intro _
      exact ⟨rfl, rfl, rfl, rfl⟩

/-- Witness for C1 at a suppressed cycle: active `WIDE_LEFT` playback (pid 3,
four misses accumulated), position `(150, 70)` classifying `WIDE_LEFT` again:
nothing is spawned and all three state fields survive. -/
theorem C1_replay_suppression_witness :
    ¬ ((150 : ℤ) = 0 ∧ (70 : ℤ) = 0) ∧
    ((step 640 480 true ⟨some 3, .WIDE_LEFT, 4⟩ 150 70 7).spawned = none ∧
      (step 640 480 true ⟨some 3, .WIDE_LEFT, 4⟩ 150 70 7).state.prev_pid = some 3 ∧
      (step 640 480 true ⟨some 3, .WIDE_LEFT, 4⟩ 150 70 7).state.prev_type = .WIDE_LEFT ∧
      (step 640 480 true ⟨some 3, .WIDE_LEFT, 4⟩ 150 70 7).state.error_cycles = 4) :=
  ⟨by decide,
    (C1_replay_suppression 640 480 true ⟨some 3, .WIDE_LEFT, 4⟩ 150 70 7 (by decide)).1
      ⟨classification_150_70, by rw [classification_150_70]; simp⟩⟩

/-- C10: a replay-suppressed cycle leaves the entire supervisor state
unchanged (in particular `error_cycles` is NOT reset), spawns nothing and
kills nothing, so a previously accumulated miss count persists through it. -/
theorem C10_suppressed_cycle_frame (w h : ℤ) (m : Bool) (s : State) (x y : ℤ) (p : ℕ)
    (hvalid : ¬ (x = 0 ∧ y = 0))
    (hsup : (process_circle w h m x y).classification = s.prev_type ∧
      (process_circle w h m x y).classification ≠ .TRACK) :
    (step w h m s x y p).state = s ∧ (step w h m s x y p).spawned = none ∧
      (step w h m s x y p).killed = [] := by
  rw [(step_cases w h m s x y p).1 hvalid, if_pos ⟨hsup.2, hsup.1⟩]
  exact ⟨rfl, rfl, rfl⟩

/-- Witness for C10: a suppressed `WIDE_LEFT` detection with seven misses
already accumulated keeps the state — stale count included — byte for
byte. -/
theorem C10_suppressed_cycle_frame_witness :
    ¬ ((150 : ℤ) = 0 ∧ (70 : ℤ) = 0) ∧
    ((step 640 480 true ⟨some 9, .WIDE_LEFT, 7⟩ 150 70 5).state =
        ⟨some 9, .WIDE_LEFT, 7⟩ ∧
      (step 640 480 true ⟨some 9, .WIDE_LEFT, 7⟩ 150 70 5).spawned = none ∧
      (step 640 480 true ⟨some 9, .WIDE_LEFT, 7⟩ 150 70 5).killed = []) :=
  ⟨by decide,
    C10_suppressed_cycle_frame 640 480 true ⟨some 9, .WIDE_LEFT, 7⟩ 150 70 5 (by decide)
      ⟨classification_150_70, by rw [classification_150_70]; simp⟩⟩

/-- While the accumulated miss count stays at or below `error_limit`,
consecutive sentinel cycles only increment `error_cycles`. -/
theorem runSentinel_below_limit (w h : ℤ) (m : Bool) (s : State) :
    ∀ k : ℕ, s.error_cycles + k ≤ error_limit →
      runSentinel w h m s k = { s with error_cycles := s.error_cycles + k } := by
  intro k
  induction k with
  | zero =>
    intro _
    show s = { s with error_cycles := s.error_cycles + 0 }
    rfl
  | succ n ih =>
    intro hle
    have hn : s.error_cycles + n ≤ error_limit := by omega
    show (step w h m (runSentinel w h m s n) 0 0 0).state =
      { s with error_cycles := s.error_cycles + (n + 1) }
    rw [ih hn, (step_cases w h m _ 0 0 0).2 ⟨rfl, rfl⟩, if_neg]
    · rfl
    · show ¬ s.error_cycles + n ≥ error_limit
      unfold error_limit at *
      omega

/-- Unfolding equation for one more sentinel cycle. -/
theorem runSentinel_succ (w h : ℤ) (m : Bool) (s : State) (n : ℕ) :
    runSentinel w h m s (n + 1) =
      (step w h m (runSentinel w h m s n) 0 0 0).state := rfl

/-- C2 amended: starting from a state with `error_cycles = 0`, a run of `k`
consecutive sentinel cycles with `k ≤ error_limit` leaves the active task
handle and classification untouched and leaves `error_cycles = k` (the count
increments on every sentinel cycle); the active task is terminated and
`prev_type` becomes `NONE` exactly on the `(error_limit + 1)`-th (11th)
consecutive sentinel cycle — one later than the claim's `missLimit`-th,
because the source checks `error_cycles >= error_limit` before
incrementing. -/
theorem C2_debounce_amended (w h : ℤ) (m : Bool) (s : State)
    (h0 : s.error_cycles = 0) :
    (∀ k : ℕ, k ≤ error_limit →
      (runSentinel w h m s k).prev_pid = s.prev_pid ∧
      (runSentinel w h m s k).prev_type = s.prev_type ∧
      (runSentinel w h m s k).error_cycles = k) ∧
    (runSentinel w h m s (error_limit + 1)).prev_pid = none ∧
    (runSentinel w h m s (error_limit + 1)).prev_type = .NONE := by
  constructor
  · intro k hk
    rw [runSentinel_below_limit w h m s k (by omega)]
    exact ⟨rfl, rfl, by simp [h0]⟩
  · rw [runSentinel_succ, runSentinel_below_limit w h m s error_limit (by omega),
      (step_cases w h m _ 0 0 0).2 ⟨rfl, rfl⟩,
      if_pos (by show s.error_cycles + error_limit ≥ error_limit; omega)]
    exact ⟨rfl, rfl⟩

/-- Witness for the amended C2: active `WIDE_LEFT` playback with pid 5 and a
fresh count; three sentinel cycles leave the count at 3, and the 11th cycle
clears the handle. -/
theorem C2_debounce_amended_witness :
    (⟨some 5, Classification.WIDE_LEFT, 0⟩ : State).error_cycles = 0 ∧
    (3 : ℕ) ≤ error_limit ∧
    (runSentinel 640 480 true ⟨some 5, .WIDE_LEFT, 0⟩ 3).error_cycles = 3 ∧
    (runSentinel 640 480 true ⟨some 5, .WIDE_LEFT, 0⟩ (error_limit + 1)).prev_pid =
      none :=
  ⟨rfl, by decide,
    ((C2_debounce_amended 640 480 true ⟨some 5, .WIDE_LEFT, 0⟩ rfl).1 3 (by decide)).2.2,
    (C2_debounce_amended 640 480 true ⟨some 5, .WIDE_LEFT, 0⟩ rfl).2.1⟩

/-- C2 counterexample: with an active `WIDE_LEFT` playback (pid 5) and
`error_cycles = 0`, ten consecutive sentinel cycles do NOT terminate the
task — handle and classification are untouched with the count at 10 — and the
termination happens only on the 11th cycle, refuting "exactly on the
missLimit-th (10th) consecutive sentinel cycle". -/
theorem C2_debounce_counterexample :
    (runSentinel 640 480 true ⟨some 5, .WIDE_LEFT, 0⟩ 10).prev_pid = some 5 ∧
    (runSentinel 640 480 true ⟨some 5, .WIDE_LEFT, 0⟩ 10).prev_type = .WIDE_LEFT ∧
    (runSentinel 640 480 true ⟨some 5, .WIDE_LEFT, 0⟩ 10).error_cycles = 10 ∧
    (runSentinel 640 480 true ⟨some 5, .WIDE_LEFT, 0⟩ 11).prev_pid = none ∧
    (runSentinel 640 480 true ⟨some 5, .WIDE_LEFT, 0⟩ 11).prev_type = .NONE := by
  have h10 := runSentinel_below_limit 640 480 true ⟨some 5, .WIDE_LEFT, 0⟩ 10
    (by show (0 : ℕ) + 10 ≤ error_limit; unfold error_limit; omega)
  have h11 : runSentinel 640 480 true ⟨some 5, .WIDE_LEFT, 0⟩ 11 =
      (step 640 480 true (runSentinel 640 480 true ⟨some 5, .WIDE_LEFT, 0⟩ 10) 0 0 0).state :=
    rfl
  refine ⟨by rw [h10], by rw [h10], by rw [h10], ?_, ?_⟩ <;>
    rw [h11, h10, (step_cases 640 480 true _ 0 0 0).2 ⟨rfl, rfl⟩,
      if_pos (by show (0 : ℕ) + 10 ≥ error_limit; unfold error_limit; omega)]

/-- C9: in every supervisor state reachable from construction by any sequence
of run cycles, `prev_type = NONE` implies `prev_pid = none`: the supervisor
never holds a recorded task handle while its bookkeeping says no guidance
state is active. -/
theorem C9_idle_invariant (w h : ℤ) (m : Bool) (s : State)
    (hr : Reachable w h m s) : s.prev_type = .NONE → s.prev_pid = none := by
  induction hr with
  | start =>
    intro _
    rfl
  | next s x y p hr ih =>
    intro ht
    by_cases hsent : x = 0 ∧ y = 0
    · rw [(step_cases w h m s x y p).2 hsent] at ht ⊢
      by_cases hlim : s.error_cycles ≥ error_limit
      · rw [if_pos hlim]
      · rw [if_neg hlim] at ht ⊢
        exact ih ht
    · rw [(step_cases w h m s x y p).1 hsent] at ht ⊢
      by_cases hc : (process_circle w h m x y).classification ≠ .TRACK ∧
          (process_circle w h m x y).classification = s.prev_type
      · rw [if_pos hc] at ht ⊢
        exact ih ht
      · rw [if_neg hc] at ht
        have hcl : (process_circle w h m x y).classification = .NONE := ht
        exact absurd hcl (classify_ne_none m
          (get_balance (((x : ℝ) - (w : ℝ) / 2) / ((w : ℝ) / 2)))
          (thresh_min_volume -
            ((1 - Real.sqrt (get_balance |((x : ℝ) - (w : ℝ) / 2) / ((w : ℝ) / 2)|)) *
              thresh_min_volume))
          (dist_from_center w h m x y))

/-- Witness for C9 at the initial state, which is reachable and idle. -/
theorem C9_idle_invariant_witness :
    Reachable 640 480 true init ∧ init.prev_type = .NONE ∧ init.prev_pid = none :=
  ⟨.start, rfl, C9_idle_invariant 640 480 true init .start rfl⟩

end AudioGenerator
